import Mathlib

/-!
Shallow embedding of the battle-simulation core of `src/components/spin-blade.tsx`
(the "SpinBlade" component): the seeded `mulberry32` generator, `spawnTops`
initialization, the `physicsStep` fixed-timestep physics (integration, wall
pass with ring-out elimination, pairwise collision pass, winner check) and the
`start` control.

Modelling conventions:
- JavaScript numbers (IEEE-754 doubles) are idealized as exact rationals `ℚ`.
- The 32-bit integer arithmetic inside `mulberry32` is modelled exactly with
  `Nat` arithmetic modulo `2^32` (JS coerces every bitwise operand with
  `ToInt32`/`ToUint32`, which is reduction modulo `2^32` on the bit pattern).
- The transcendental library functions the code calls (`Math.PI`, `Math.cos`,
  `Math.sin`, `Math.sqrt`, `Math.hypot`) are deterministic functions from
  doubles to doubles in any single JS process; they are abstracted as a
  `MathModel` record of rational-valued functions.  Theorems quantify over the
  model (so they hold for the actual library functions); concrete evaluations
  use `ratMathModel`, whose square root is exact on all inputs occurring in
  those evaluations (perfect squares of rationals).
-/

namespace SpinBlade

/-- One spinning top (`type Top` in the source). -/
structure Top where
  id : String
  label : String
  color : String
  x : ℚ
  y : ℚ
  vx : ℚ
  vy : ℚ
  ang : ℚ
  vang : ℚ
  r : ℚ
  hp : ℚ
  alive : Bool
deriving DecidableEq, Repr

/-- Simulation settings (`type Settings` in the source). -/
structure Settings where
  arenaR : ℚ
  friction : ℚ
  spinFriction : ℚ
  damage : ℚ
  topR : ℚ
  seed : Nat
deriving DecidableEq, Repr

/-- One roster entry (the `movies` state elements: id, label, color). -/
structure Movie where
  id : String
  label : String
  color : String
deriving DecidableEq, Repr

/-- The mutable simulation aggregate (`simRef.current` in the source):
the list of tops, the `running` flag and the winner (a label or `null`). -/
structure Sim where
  tops : List Top
  running : Bool
  winner : Option String
deriving DecidableEq, Repr

/-- Oracle for the JS `Math` library functions used by the component.  Within
one JS process these are fixed deterministic double→double functions, hence
representable as rational-valued functions. -/
structure MathModel where
  pi : ℚ
  cos : ℚ → ℚ
  sin : ℚ → ℚ
  sqrt : ℚ → ℚ
  hypot : ℚ → ℚ → ℚ

/-- `2^32`, the modulus of all 32-bit coercions in `mulberry32`. -/
def M32 : Nat := 4294967296

/-- The state advance of `mulberry32`: `t += 0x6D2B79F5` reduced mod `2^32`
(only the low 32 bits of the closure variable ever influence the output). -/
def advance (t : Nat) : Nat := (t + 0x6D2B79F5) % M32

/-- Iterated state advance. -/
def advIter : Nat → Nat → Nat
  | 0, t => t
  | k + 1, t => advance (advIter k t)

/-- The output mixing of `mulberry32`: two xorshift-multiply rounds.
`Math.imul` is multiplication mod `2^32` on the 32-bit patterns; `^`, `|`,
`>>>` are the corresponding bitwise operations on the patterns. -/
def mulberryMix (t : Nat) : Nat :=
  let r1 := (Nat.xor t (t >>> 15)) * (Nat.lor 1 t) % M32
  let r2 := Nat.xor r1 ((r1 + (Nat.xor r1 (r1 >>> 7)) * (Nat.lor 61 r1) % M32) % M32)
  Nat.xor r2 (r2 >>> 14)

/-- One call of the closure returned by `mulberry32`: advance the state, then
return the mixed state divided by `2^32`. -/
def mulberry32Next (t : Nat) : Nat × ℚ :=
  (advance t, ((mulberryMix (advance t) : ℚ)) / (M32 : ℚ))

/-- State of the generator seeded with `seed` after `k` calls
(`seed >>> 0` is `seed % 2^32`). -/
def mulberryState (seed k : Nat) : Nat := advIter k (seed % M32)

/-- The `k`-th (0-indexed) value returned by `mulberry32(seed)`. -/
def mulberryVal (seed k : Nat) : ℚ := (mulberry32Next (mulberryState seed k)).2

lemma advIter_add (m n : Nat) (t : Nat) :
    advIter (m + n) t = advIter m (advIter n t) := by
  induction m with
  | zero => rw [Nat.zero_add]; rfl
  | succ m ih => rw [Nat.succ_add]; simp [advIter, ih]

lemma M32_eq_pow : M32 = 2 ^ 32 := by norm_num [M32]

lemma mulberryMix_lt (t : Nat) : mulberryMix t < M32 := by
  have hpos : 0 < M32 := by norm_num [M32]
  rw [M32_eq_pow]
  simp only [mulberryMix]
  set r1 := (Nat.xor t (t >>> 15)) * (Nat.lor 1 t) % M32 with hr1
  set s := (r1 + (Nat.xor r1 (r1 >>> 7)) * (Nat.lor 61 r1) % M32) % M32 with hs
  have h1 : r1 < 2 ^ 32 := M32_eq_pow ▸ Nat.mod_lt _ hpos
  have h2 : s < 2 ^ 32 := M32_eq_pow ▸ Nat.mod_lt _ hpos
  have hr2 : Nat.xor r1 s < 2 ^ 32 := Nat.xor_lt_two_pow h1 h2
  have hshift : (Nat.xor r1 s) >>> 14 ≤ Nat.xor r1 s := by
    rw [Nat.shiftRight_eq_div_pow]; exact Nat.div_le_self _ _
  exact Nat.xor_lt_two_pow hr2 (lt_of_le_of_lt hshift hr2)

lemma mulberryVal_nonneg (seed k : Nat) : 0 ≤ mulberryVal seed k := by
  unfold mulberryVal mulberry32Next
  positivity

lemma mulberryVal_lt_one (seed k : Nat) : mulberryVal seed k < 1 := by
  unfold mulberryVal mulberry32Next
  rw [div_lt_one (by norm_num [M32])]
  exact_mod_cast mulberryMix_lt _

/-- Claim C2: the generator seeded with a 32-bit seed advances a 32-bit state
by the fixed additive constant `0x6D2B79F5` on each call, mixes the state
through two xorshift-multiply rounds (`mulberryMix`) and returns the mixed
32-bit value divided by `2^32`; every returned value lies in `[0, 1)`, and
two generators with equal seeds return identical values at each call (the
output is a pure function of seed and call index). -/
theorem mulberry32_spec (seed : Nat) (h : seed < 4294967296) (k : Nat) :
    mulberryState seed (k + 1) = (mulberryState seed k + 0x6D2B79F5) % 4294967296
    ∧ mulberryVal seed k = ((mulberryMix (mulberryState seed (k + 1)) : ℚ)) / (4294967296 : ℚ)
    ∧ mulberryMix (mulberryState seed (k + 1)) < 4294967296
    ∧ 0 ≤ mulberryVal seed k ∧ mulberryVal seed k < 1
    ∧ ∀ seed2, seed2 = seed → ∀ j, mulberryVal seed2 j = mulberryVal seed j := by
  refine ⟨rfl, rfl, mulberryMix_lt _, mulberryVal_nonneg _ _, mulberryVal_lt_one _ _, ?_⟩
  intro seed2 hs j
  rw [hs]

/-! ### Arena initialization (`spawnTops`) -/

/-- Spawn one top (the body of the `movies.map` callback in `spawnTops`):
draws, in order, angle jitter, radius fraction, speed, heading jitter and
angular velocity from the generator state `t0`, returning the top and the
generator state after the five draws. -/
def spawnBody (M : MathModel) (s : Settings) (rr angleStep : ℚ) (i : Nat)
    (m : Movie) (t0 : Nat) : Top × Nat :=
  let p1 := mulberry32Next t0
  let a := (i : ℚ) * angleStep + p1.2 * (2/10)
  let p2 := mulberry32Next p1.1
  let rdist := rr * (85/100) + rr * (15/100) * p2.2
  let x := M.cos a * rdist
  let y := M.sin a * rdist
  let p3 := mulberry32Next p2.1
  let speed := 120 + 80 * p3.2
  let p4 := mulberry32Next p3.1
  let dir := a + M.pi + (p4.2 - 1/2) * (6/10)
  let vx := M.cos dir * speed
  let vy := M.sin dir * speed
  let p5 := mulberry32Next p4.1
  let vang := (p5.2 - 1/2) * 14
  ({ id := m.id, label := m.label, color := m.color,
     x := x, y := y, vx := vx, vy := vy, ang := a, vang := vang,
     r := s.topR, hp := 100, alive := true }, p5.1)

/-- The `movies.map` iteration of `spawnTops`, threading the generator state
through the bodies in roster order. -/
def spawnList (M : MathModel) (s : Settings) (rr angleStep : ℚ) :
    Nat → Nat → List Movie → List Top
  | _, _, [] => []
  | i, t0, m :: rest =>
      (spawnBody M s rr angleStep i m t0).1 ::
        spawnList M s rr angleStep (i + 1) (spawnBody M s rr angleStep i m t0).2 rest

/-- `spawnTops`: seed the generator with `settings.seed`, then place one top
per roster entry. -/
def spawnTops (M : MathModel) (movies : List Movie) (s : Settings) : List Top :=
  let rr := s.arenaR - s.topR - 6
  let n := movies.length
  let angleStep := (2 * M.pi) / (max 1 n : ℚ)
  spawnList M s rr angleStep 0 (s.seed % M32) movies

/-! ### Physics step (`physicsStep`) -/

/-- `WALL_RESTITUTION = 0.85` in the source. -/
def WALL_RESTITUTION : ℚ := 85/100

/-- `COLL_RESTITUTION = 0.8` in the source. -/
def COLL_RESTITUTION : ℚ := 8/10

/-- `FIXED_DT = 1/120` in the source. -/
def FIXED_DT : ℚ := 1/120

/-- Integration and damping for one body (the first loop of `physicsStep`). -/
def integrate (s : Settings) (dt : ℚ) (t : Top) : Top :=
  if t.alive = true then
    { t with
      x := t.x + t.vx * dt
      y := t.y + t.vy * dt
      ang := t.ang + t.vang * dt
      vx := t.vx * max 0 (1 - s.friction * dt)
      vy := t.vy * max 0 (1 - s.friction * dt)
      vang := t.vang * max 0 (1 - s.spinFriction * dt) }
  else t

/-- Wall-collision response for one body (the `dist > limit` branch of the
second loop of `physicsStep`), for the given center distance `dist`. -/
def wallResponse (s : Settings) (dist : ℚ) (t : Top) : Top :=
  if s.arenaR - t.r - 4 < dist then
    let nx := t.x / dist
    let ny := t.y / dist
    let pen := dist - (s.arenaR - t.r - 4)
    let vn := t.vx * nx + t.vy * ny
    let vtX := t.vx - vn * nx
    let vtY := t.vy - vn * ny
    let rvx := vtX - vn * nx * WALL_RESTITUTION
    let rvy := vtY - vn * ny * WALL_RESTITUTION
    let impact := |vn|
    { t with x := t.x - nx * pen, y := t.y - ny * pen, vx := rvx, vy := rvy,
             hp := t.hp - impact * (3/100) * s.damage }
  else t

/-- The ring-out / elimination check at the end of the second loop of
`physicsStep`; `dist` is the center distance computed at the top of the loop
iteration, i.e. before the wall positional correction. -/
def ringOutCheck (M : MathModel) (s : Settings) (dist : ℚ) (t : Top) : Top :=
  if s.arenaR + 40 < dist ∨ t.hp ≤ 0 ∨ (M.hypot t.vx t.vy < 5 ∧ |t.vang| < 2/10) then
    { t with alive := false }
  else t

/-- One iteration of the second (`Wall collisions and ring out`) loop of
`physicsStep`: wall response followed by the ring-out check, both using the
distance measured on entry. -/
def wallRing (M : MathModel) (s : Settings) (t : Top) : Top :=
  if t.alive = true then
    let dist := M.hypot t.x t.y
    ringOutCheck M s dist (wallResponse s dist t)
  else t

/-- Pairwise collision resolution for one (ordered) pair (the body of the
inner loop of the `Pair collisions` section of `physicsStep`). -/
def pairResolve (M : MathModel) (s : Settings) (a b : Top) : Top × Top :=
  if a.alive = true ∧ b.alive = true then
    let dx := b.x - a.x
    let dy := b.y - a.y
    let d2 := dx * dx + dy * dy
    let rsum := a.r + b.r
    if d2 < rsum * rsum then
      let d := M.sqrt (max (1/1000000) d2)
      let nx := dx / d
      let ny := dy / d
      let half := (rsum - d) / 2
      let rvx := b.vx - a.vx
      let rvy := b.vy - a.vy
      let relN := rvx * nx + rvy * ny
      let jimp := -(1 + COLL_RESTITUTION) * relN / 2
      let ix := jimp * nx
      let iy := jimp * ny
      let spin := (rvx * (-ny) + rvy * nx) * (1/100)
      let dmg := |relN| * (4/100) * s.damage
      ({ a with x := a.x - nx * half, y := a.y - ny * half,
                vx := a.vx - ix, vy := a.vy - iy,
                vang := a.vang + spin, hp := a.hp - dmg },
       { b with x := b.x + nx * half, y := b.y + ny * half,
                vx := b.vx + ix, vy := b.vy + iy,
                vang := b.vang - spin, hp := b.hp - dmg })
    else (a, b)
  else (a, b)

/-- Resolve one body `a` against every later body in the list (the inner
`j` loop), threading the in-place updates of `a` and of the list. -/
def collideOne (M : MathModel) (s : Settings) : Top → List Top → Top × List Top
  | a, [] => (a, [])
  | a, b :: rest =>
      let p := pairResolve M s a b
      let q := collideOne M s p.1 rest
      (q.1, p.2 :: q.2)

/-- The double loop of the `Pair collisions` section, structurally recursive
on a fuel argument (`collideOne` preserves list length, so fuel equal to the
list length runs the recursion to completion exactly like the outer `i`
loop). -/
def collideAllFuel (M : MathModel) (s : Settings) : Nat → List Top → List Top
  | 0, l => l
  | _ + 1, [] => []
  | fuel + 1, a :: rest =>
      let p := collideOne M s a rest
      p.1 :: collideAllFuel M s fuel p.2

/-- The full pairwise pass of `physicsStep`. -/
def pairPass (M : MathModel) (s : Settings) (l : List Top) : List Top :=
  collideAllFuel M s l.length l

/-- The winner value stored by `physicsStep`: `alive[0]?.label || null`
(JavaScript `||` maps the empty-string label to `null`). -/
def jsWinner (aliveTops : List Top) : Option String :=
  match aliveTops.head? with
  | none => none
  | some t => if t.label = "" then none else some t.label

/-- The tops after the three mutation passes of `physicsStep`. -/
def stepTops (M : MathModel) (s : Settings) (dt : ℚ) (l : List Top) : List Top :=
  pairPass M s ((l.map (integrate s dt)).map (wallRing M s))

/-- One full `physicsStep(dt)`: integrate, wall pass with ring-out, pairwise
pass, then the winner check. -/
def physicsStep (M : MathModel) (s : Settings) (dt : ℚ) (sim : Sim) : Sim :=
  let tops3 := stepTops M s dt sim.tops
  let aliveTops := tops3.filter (fun t => t.alive)
  if aliveTops.length ≤ 1 then
    { tops := tops3, running := false, winner := jsWinner aliveTops }
  else { sim with tops := tops3 }

/-- One loop iteration of `tick`: the loop body steps the physics only while
`running` holds. -/
def tick (M : MathModel) (s : Settings) (dt : ℚ) (sim : Sim) : Sim :=
  if sim.running = true then physicsStep M s dt sim else sim

/-- Iterated ticks. -/
def runTicks (M : MathModel) (s : Settings) (dt : ℚ) : Nat → Sim → Sim
  | 0, sim => sim
  | k + 1, sim => runTicks M s dt k (tick M s dt sim)

/-- The successful path of `start()`: `spawnTops()` (which also resets the
winner to `null`) followed by `running = true`. -/
def startMatch (M : MathModel) (movies : List Movie) (s : Settings) : Sim :=
  { tops := spawnTops M movies s, running := true, winner := none }

/-- `start()`: returns early, leaving the simulation state untouched, when the
roster has fewer than two entries. -/
def start (M : MathModel) (movies : List Movie) (s : Settings) (sim : Sim) : Sim :=
  if movies.length < 2 then sim else startMatch M movies s

/-! ### A concrete math model for evaluation -/

/-- Bisection loop for the integer square root, structurally recursive on a
fuel argument so that it reduces inside the kernel; maintains `lo * lo ≤ n`. -/
def isqrtGo (n : Nat) : Nat → Nat → Nat → Nat
  | 0, lo, _ => lo
  | fuel + 1, lo, hi =>
      let mid := (lo + hi) / 2
      if mid = lo then lo
      else if mid * mid ≤ n then isqrtGo n fuel mid hi
      else isqrtGo n fuel lo mid

/-- Kernel-computable integer square root (floor), exact on perfect squares.
For `n ≥ 1` the bisection starts from the valid bracket `1² ≤ n < (n+1)²`. -/
def isqrt (n : Nat) : Nat := if n = 0 then 0 else isqrtGo n (n + 2) 1 (n + 1)

/-- A computable square root on `ℚ`, exact whenever the numerator and
denominator are perfect squares (in particular on squares of rationals, the
only inputs at which concrete evaluations below apply it). -/
def ratSqrt (q : ℚ) : ℚ :=
  if q ≤ 0 then 0 else (isqrt q.num.toNat : ℚ) / (isqrt q.den : ℚ)

/-- Concrete stand-in for the JS `Math` oracle, used only to instantiate
theorems that hold for every `MathModel`; its square root is exact on every
input occurring in those instantiations. -/
def ratMathModel : MathModel :=
  { pi := 355/113
    cos := fun _ => 1
    sin := fun _ => 0
    sqrt := ratSqrt
    hypot := fun x y => ratSqrt (x * x + y * y) }

/-- Default junk top used with `List.getD`. -/
def top0 : Top :=
  { id := "", label := "", color := "", x := 0, y := 0, vx := 0, vy := 0,
    ang := 0, vang := 0, r := 0, hp := 0, alive := false }

/-- Default junk roster entry used with `List.getD`. -/
def movie0 : Movie := { id := "", label := "", color := "" }

/-- The default `settings` state of the component. -/
def defaultSettings : Settings :=
  { arenaR := 250, friction := 15/100, spinFriction := 2/10, damage := 1,
    topR := 26, seed := 1337 }

/-- Witness for C2 at seed `1337`, call index `0`. -/
theorem mulberry32_spec_witness :
    mulberryState 1337 1 = (mulberryState 1337 0 + 0x6D2B79F5) % 4294967296
    ∧ mulberryVal 1337 0 = ((mulberryMix (mulberryState 1337 1) : ℚ)) / (4294967296 : ℚ)
    ∧ mulberryMix (mulberryState 1337 1) < 4294967296
    ∧ 0 ≤ mulberryVal 1337 0 ∧ mulberryVal 1337 0 < 1
    ∧ ∀ seed2, seed2 = 1337 → ∀ j, mulberryVal seed2 j = mulberryVal 1337 j :=
  mulberry32_spec 1337 (by decide) 0

/-! ### Concrete inputs for witnesses and counterexamples -/

/-- Concrete roster entry. -/
def movieA : Movie := { id := "a", label := "Inception", color := "#22c55e" }

/-- Concrete roster entry. -/
def movieB : Movie := { id := "b", label := "The Matrix", color := "#3b82f6" }

/-- Idle simulation state (as after component mount, before any start). -/
def simIdle : Sim := { tops := [], running := false, winner := none }

/-- Some running simulation state. -/
def simBusy : Sim := { tops := [top0], running := true, winner := some "x" }

/-- Claim C1: two matches constructed by the same initialization (`spawnTops`
with the same roster, settings and seed, i.e. `startMatch`) and advanced by
the same number of physics steps with the same fixed `dt` have identical body
states (all `Top` fields, hence position, velocity, orientation, angular
velocity, health and aliveness) and the same winner at every step.  In the
embedding the whole pipeline is a pure function of roster, settings, seed and
`dt` — it consumes no entropy beyond the seeded generator — so equal inputs
give equal runs. -/
theorem determinism_replay (M : MathModel) (movies : List Movie) (s : Settings)
    (dt : ℚ) (h : 2 ≤ movies.length) (k : Nat) (m1 m2 : Sim)
    (h1 : m1 = startMatch M movies s) (h2 : m2 = startMatch M movies s) :
    runTicks M s dt k m1 = runTicks M s dt k m2
    ∧ (runTicks M s dt k m1).tops = (runTicks M s dt k m2).tops
    ∧ (runTicks M s dt k m1).winner = (runTicks M s dt k m2).winner := by
  subst h1; subst h2; exact ⟨rfl, rfl, rfl⟩

/-- Witness for C1: a two-movie roster, default settings, three ticks. -/
theorem determinism_replay_witness :
    2 ≤ ([movieA, movieB] : List Movie).length
    ∧ (runTicks ratMathModel defaultSettings FIXED_DT 3
          (startMatch ratMathModel [movieA, movieB] defaultSettings)
        = runTicks ratMathModel defaultSettings FIXED_DT 3
          (startMatch ratMathModel [movieA, movieB] defaultSettings)
      ∧ (runTicks ratMathModel defaultSettings FIXED_DT 3
          (startMatch ratMathModel [movieA, movieB] defaultSettings)).tops
        = (runTicks ratMathModel defaultSettings FIXED_DT 3
          (startMatch ratMathModel [movieA, movieB] defaultSettings)).tops
      ∧ (runTicks ratMathModel defaultSettings FIXED_DT 3
          (startMatch ratMathModel [movieA, movieB] defaultSettings)).winner
        = (runTicks ratMathModel defaultSettings FIXED_DT 3
          (startMatch ratMathModel [movieA, movieB] defaultSettings)).winner) :=
  ⟨by decide,
   determinism_replay ratMathModel [movieA, movieB] defaultSettings FIXED_DT
     (by decide) 3 _ _ rfl rfl⟩

/-- Claim C5, counterexample: with a one-movie roster, `start` silently does
nothing — it returns the simulation state unchanged (no running match, no
winner), with no distinct "cannot start" signal of any kind; the claim says
the code does not silently do nothing. -/
theorem start_silent_cex :
    start ratMathModel [movieA] defaultSettings simIdle = simIdle
    ∧ (start ratMathModel [movieA] defaultSettings simIdle).running = false
    ∧ (start ratMathModel [movieA] defaultSettings simIdle).winner = none := by
  decide

/-- Claim C5, amended: for every roster with fewer than 2 participants,
`start` silently returns the simulation state unchanged — it does not spawn
bodies, does not produce a running match or a degenerate one-body winner,
and signals no distinct "cannot start" condition. -/
theorem start_short_roster_noop (M : MathModel) (movies : List Movie)
    (s : Settings) (sim : Sim) (h : movies.length < 2) :
    start M movies s sim = sim := by
  unfold start
  rw [if_pos h]

/-- Witness for the amended C5 at a concrete running state. -/
theorem start_short_roster_noop_witness :
    ([movieB] : List Movie).length < 2
    ∧ start ratMathModel [movieB] defaultSettings simBusy = simBusy :=
  ⟨by decide,
   start_short_roster_noop ratMathModel [movieB] defaultSettings simBusy (by decide)⟩

/-! ### Claim C3: termination and winner -/

/-- A live body with enough speed to survive one step. -/
def topC3a : Top :=
  { id := "id1", label := "Movie", color := "#fff", x := 0, y := 0, vx := 10,
    vy := 0, ang := 0, vang := 0, r := 26, hp := 100, alive := true }

/-- An already eliminated body. -/
def topC3b : Top :=
  { id := "id2", label := "Other", color := "#000", x := 0, y := 0, vx := 0,
    vy := 0, ang := 0, vang := 0, r := 26, hp := 0, alive := false }

/-- Two-body state with one body already dead. -/
def simC3 : Sim := { tops := [topC3a, topC3b], running := true, winner := none }

/-- One-body state. -/
def simC3w : Sim := { tops := [topC3a], running := true, winner := none }

/-- Claim C3, counterexample: after a step leaving exactly one alive body, the
winner is set to that body's label (`alive[0]?.label || null`), not to its id:
here the sole alive body has id `id1` but the stored winner is its label
`Movie`. -/
theorem winner_label_cex :
    (((physicsStep ratMathModel defaultSettings FIXED_DT simC3).tops.filter
        (fun t => t.alive)).map (fun t => t.id)) = ["id1"]
    ∧ (physicsStep ratMathModel defaultSettings FIXED_DT simC3).running = false
    ∧ (physicsStep ratMathModel defaultSettings FIXED_DT simC3).winner = some "Movie"
    ∧ ¬ (physicsStep ratMathModel defaultSettings FIXED_DT simC3).winner = some "id1" := by
  with_unfolding_all decide

/-- Claim C3, amended: whenever the number of alive bodies after a physics
step is at most 1, that step sets `running` to `false` and sets the winner to
the label of the sole remaining alive body (`none` when that label is the
empty string, because of the JavaScript `|| null`), or to `none` when zero
bodies remain alive — `jsWinner` of the alive list, whose `head?` is `none`
exactly in the zero-survivor case. -/
theorem termination_winner (M : MathModel) (s : Settings) (dt : ℚ) (sim : Sim)
    (h : ((physicsStep M s dt sim).tops.filter (fun t => t.alive)).length ≤ 1) :
    (physicsStep M s dt sim).running = false
    ∧ (physicsStep M s dt sim).winner
        = jsWinner ((physicsStep M s dt sim).tops.filter (fun t => t.alive)) := by
  have hstep : physicsStep M s dt sim =
      (if ((stepTops M s dt sim.tops).filter (fun t => t.alive)).length ≤ 1 then
        { tops := stepTops M s dt sim.tops, running := false,
          winner := jsWinner ((stepTops M s dt sim.tops).filter (fun t => t.alive)) }
      else { sim with tops := stepTops M s dt sim.tops }) := rfl
  by_cases hc : ((stepTops M s dt sim.tops).filter (fun t => t.alive)).length ≤ 1
  · rw [hstep, if_pos hc]
    exact ⟨rfl, rfl⟩
  · rw [hstep, if_neg hc] at h
    exact absurd h hc

/-- Witness for the amended C3 at a concrete one-body state. -/
theorem termination_winner_witness :
    ((physicsStep ratMathModel defaultSettings FIXED_DT simC3w).tops.filter
        (fun t => t.alive)).length ≤ 1
    ∧ ((physicsStep ratMathModel defaultSettings FIXED_DT simC3w).running = false
      ∧ (physicsStep ratMathModel defaultSettings FIXED_DT simC3w).winner
          = jsWinner ((physicsStep ratMathModel defaultSettings FIXED_DT simC3w).tops.filter
              (fun t => t.alive))) :=
  ⟨by with_unfolding_all decide,
   termination_winner ratMathModel defaultSettings FIXED_DT simC3w
     (by with_unfolding_all decide)⟩

/-! ### Claim C4: where elimination is evaluated -/

lemma wallResponse_alive (s : Settings) (dist : ℚ) (t : Top) :
    (wallResponse s dist t).alive = t.alive := by
  unfold wallResponse
  split <;> rfl

lemma pairResolve_alive_fst (M : MathModel) (s : Settings) (a b : Top) :
    (pairResolve M s a b).1.alive = a.alive := by
  unfold pairResolve
  split
  · dsimp only
    split <;> rfl
  · rfl

lemma pairResolve_alive_snd (M : MathModel) (s : Settings) (a b : Top) :
    (pairResolve M s a b).2.alive = b.alive := by
  unfold pairResolve
  split
  · dsimp only
    split <;> rfl
  · rfl

/-- Fast approaching body: dies of pairwise damage within one step. -/
def topC4a : Top :=
  { id := "a1", label := "A", color := "", x := -30, y := 0, vx := 1000,
    vy := 0, ang := 0, vang := 0, r := 26, hp := 50, alive := true }

/-- Its mirror image. -/
def topC4b : Top :=
  { id := "b1", label := "B", color := "", x := 30, y := 0, vx := -1000,
    vy := 0, ang := 0, vang := 0, r := 26, hp := 50, alive := true }

/-- Head-on collision state. -/
def simC4 : Sim := { tops := [topC4a, topC4b], running := true, winner := none }

/-- A stalled body (zero linear and angular speed). -/
def topC4w : Top :=
  { id := "w", label := "W", color := "", x := 0, y := 0, vx := 0, vy := 0,
    ang := 0, vang := 0, r := 26, hp := 100, alive := true }

/-- Claim C4, counterexample: elimination is NOT evaluated after both
collision passes.  In this head-on collision the pairwise pass deals damage
that takes body 0's health to `-29.9 ≤ 0`, yet the body ends the step with
`alive = true`, because the elimination check ran inside the wall pass,
before the pairwise pass. -/
theorem elimination_order_cex :
    ((physicsStep ratMathModel defaultSettings FIXED_DT simC4).tops.getD 0 top0).hp ≤ 0
    ∧ ((physicsStep ratMathModel defaultSettings FIXED_DT simC4).tops.getD 0 top0).alive = true := by
  with_unfolding_all decide

/-- Claim C4, amended: elimination is evaluated inside the wall pass, per
body, after that body's wall response but before the pairwise pass: an alive
body is marked `alive = false` exactly when its pre-correction distance from
center exceeds `arenaR + 40`, or its health after wall damage is `≤ 0`, or
its linear speed after wall reflection is below 5 and its angular speed is
below 0.2 (both together); the pairwise pass never changes `alive`. -/
theorem elimination_point (M : MathModel) (s : Settings) (t a b : Top)
    (ht : t.alive = true) :
    ((wallRing M s t).alive = false ↔
      (s.arenaR + 40 < M.hypot t.x t.y
        ∨ (wallResponse s (M.hypot t.x t.y) t).hp ≤ 0
        ∨ (M.hypot (wallResponse s (M.hypot t.x t.y) t).vx
              (wallResponse s (M.hypot t.x t.y) t).vy < 5
            ∧ |(wallResponse s (M.hypot t.x t.y) t).vang| < 2/10)))
    ∧ (pairResolve M s a b).1.alive = a.alive
    ∧ (pairResolve M s a b).2.alive = b.alive := by
  refine ⟨?_, pairResolve_alive_fst M s a b, pairResolve_alive_snd M s a b⟩
  unfold wallRing ringOutCheck
  rw [if_pos ht]
  by_cases hc : s.arenaR + 40 < M.hypot t.x t.y
      ∨ (wallResponse s (M.hypot t.x t.y) t).hp ≤ 0
      ∨ (M.hypot (wallResponse s (M.hypot t.x t.y) t).vx
            (wallResponse s (M.hypot t.x t.y) t).vy < 5
          ∧ |(wallResponse s (M.hypot t.x t.y) t).vang| < 2/10)
  · rw [if_pos hc]
    simp [hc]
  · rw [if_neg hc]
    simp [hc, wallResponse_alive, ht]

/-- Witness for the amended C4 at a stalled body (eliminated by the
settled-elimination branch). -/
theorem elimination_point_witness :
    topC4w.alive = true
    ∧ (((wallRing ratMathModel defaultSettings topC4w).alive = false ↔
        (defaultSettings.arenaR + 40 < ratMathModel.hypot topC4w.x topC4w.y
          ∨ (wallResponse defaultSettings (ratMathModel.hypot topC4w.x topC4w.y) topC4w).hp ≤ 0
          ∨ (ratMathModel.hypot
                (wallResponse defaultSettings (ratMathModel.hypot topC4w.x topC4w.y) topC4w).vx
                (wallResponse defaultSettings (ratMathModel.hypot topC4w.x topC4w.y) topC4w).vy < 5
              ∧ |(wallResponse defaultSettings (ratMathModel.hypot topC4w.x topC4w.y) topC4w).vang| < 2/10)))
      ∧ (pairResolve ratMathModel defaultSettings topC4a topC4b).1.alive = topC4a.alive
      ∧ (pairResolve ratMathModel defaultSettings topC4a topC4b).2.alive = topC4b.alive) :=
  ⟨rfl, elimination_point ratMathModel defaultSettings topC4w topC4a topC4b rfl⟩

/-! ### Claim C8: wall pass response -/

lemma ringOutCheck_fields (M : MathModel) (s : Settings) (dist : ℚ) (t : Top) :
    (ringOutCheck M s dist t).x = t.x ∧ (ringOutCheck M s dist t).y = t.y
    ∧ (ringOutCheck M s dist t).vx = t.vx ∧ (ringOutCheck M s dist t).vy = t.vy := by
  unfold ringOutCheck
  split <;> exact ⟨rfl, rfl, rfl, rfl⟩

/-- Claim C8: in the wall pass, every alive body whose center distance
exceeds `arenaR − radius − 4` is pushed back inward by exactly the overlap
amount `pen` along the outward unit normal (positional correction only), and
its new velocity is its tangential component plus `−WALL_RESTITUTION` times
its normal component; the wall restitution is a fixed constant distinct from
the pairwise restitution constant. -/
theorem wall_response_spec (M : MathModel) (s : Settings) (t : Top)
    (ht : t.alive = true) (hd : s.arenaR - t.r - 4 < M.hypot t.x t.y) :
    let dist := M.hypot t.x t.y
    let nx := t.x / dist
    let ny := t.y / dist
    let pen := dist - (s.arenaR - t.r - 4)
    let vn := t.vx * nx + t.vy * ny
    (wallRing M s t).x = t.x - nx * pen
    ∧ (wallRing M s t).y = t.y - ny * pen
    ∧ (wallRing M s t).vx = (t.vx - vn * nx) - WALL_RESTITUTION * (vn * nx)
    ∧ (wallRing M s t).vy = (t.vy - vn * ny) - WALL_RESTITUTION * (vn * ny)
    ∧ WALL_RESTITUTION ≠ COLL_RESTITUTION := by
  dsimp only
  have hw : wallRing M s t
      = ringOutCheck M s (M.hypot t.x t.y) (wallResponse s (M.hypot t.x t.y) t) := by
    unfold wallRing
    rw [if_pos ht]
  obtain ⟨hx, hy, hvx, hvy⟩ :=
    ringOutCheck_fields M s (M.hypot t.x t.y) (wallResponse s (M.hypot t.x t.y) t)
  rw [hw, hx, hy, hvx, hvy]
  unfold wallResponse
  rw [if_pos hd]
  dsimp only
  refine ⟨rfl, rfl, by ring, by ring, ?_⟩
  norm_num [WALL_RESTITUTION, COLL_RESTITUTION]

/-- A body overlapping the wall. -/
def topC8 : Top :=
  { id := "c8", label := "C8", color := "", x := 230, y := 0, vx := 60,
    vy := 0, ang := 0, vang := 3, r := 26, hp := 100, alive := true }

/-- Witness for C8 at a concrete body past the wall limit. -/
theorem wall_response_spec_witness :
    topC8.alive = true
    ∧ defaultSettings.arenaR - topC8.r - 4 < ratMathModel.hypot topC8.x topC8.y
    ∧ (let dist := ratMathModel.hypot topC8.x topC8.y
       let nx := topC8.x / dist
       let ny := topC8.y / dist
       let pen := dist - (defaultSettings.arenaR - topC8.r - 4)
       let vn := topC8.vx * nx + topC8.vy * ny
       (wallRing ratMathModel defaultSettings topC8).x = topC8.x - nx * pen
       ∧ (wallRing ratMathModel defaultSettings topC8).y = topC8.y - ny * pen
       ∧ (wallRing ratMathModel defaultSettings topC8).vx
           = (topC8.vx - vn * nx) - WALL_RESTITUTION * (vn * nx)
       ∧ (wallRing ratMathModel defaultSettings topC8).vy
           = (topC8.vy - vn * ny) - WALL_RESTITUTION * (vn * ny)
       ∧ WALL_RESTITUTION ≠ COLL_RESTITUTION) :=
  ⟨rfl, by with_unfolding_all decide,
   wall_response_spec ratMathModel defaultSettings topC8 rfl
     (by with_unfolding_all decide)⟩

/-! ### Claim C6: pairwise restitution -/

/-- Claim C6: for two distinct alive equal-mass bodies resolved as colliding
(the overlap guard holds), with the clamp inactive (`d2 ≥ 1e-6`) and the
square root exact (`sqrt(d2)² = d2`, which is what exact real arithmetic
gives), the impulse `-(1+`​`COLL_RESTITUTION`​`)/2 × relativeNormalVelocity`
applied equally and oppositely makes the post-impulse relative normal
velocity `−COLL_RESTITUTION` times the pre-impulse one, hence the relative
normal speed is `COLL_RESTITUTION` times the pre-impulse speed.  Damage and
positional correction touch `hp`, `x`, `y` only, so the velocities of
`pairResolve` are exactly the post-impulse ones. -/
theorem pair_restitution (M : MathModel) (s : Settings) (a b : Top)
    (ha : a.alive = true) (hb : b.alive = true)
    (hover : (b.x - a.x) * (b.x - a.x) + (b.y - a.y) * (b.y - a.y)
        < (a.r + b.r) * (a.r + b.r))
    (hmin : (1 : ℚ)/1000000 ≤ (b.x - a.x) * (b.x - a.x) + (b.y - a.y) * (b.y - a.y))
    (hex : M.sqrt (max ((1 : ℚ)/1000000)
            ((b.x - a.x) * (b.x - a.x) + (b.y - a.y) * (b.y - a.y)))
          * M.sqrt (max ((1 : ℚ)/1000000)
            ((b.x - a.x) * (b.x - a.x) + (b.y - a.y) * (b.y - a.y)))
        = (b.x - a.x) * (b.x - a.x) + (b.y - a.y) * (b.y - a.y)) :
    let d := M.sqrt (max ((1 : ℚ)/1000000)
        ((b.x - a.x) * (b.x - a.x) + (b.y - a.y) * (b.y - a.y)))
    let nx := (b.x - a.x) / d
    let ny := (b.y - a.y) / d
    let a2 := (pairResolve M s a b).1
    let b2 := (pairResolve M s a b).2
    ((b2.vx - a2.vx) * nx + (b2.vy - a2.vy) * ny)
      = -COLL_RESTITUTION * ((b.vx - a.vx) * nx + (b.vy - a.vy) * ny)
    ∧ |(b2.vx - a2.vx) * nx + (b2.vy - a2.vy) * ny|
      = COLL_RESTITUTION * |(b.vx - a.vx) * nx + (b.vy - a.vy) * ny| := by
  dsimp only
  set dx := b.x - a.x with hdxdef
  set dy := b.y - a.y with hdydef
  set d := M.sqrt (max ((1 : ℚ)/1000000) (dx * dx + dy * dy)) with hddef
  have hpos : (0 : ℚ) < dx * dx + dy * dy := lt_of_lt_of_le (by norm_num) hmin
  have hdne : d ≠ 0 := by
    intro h0
    rw [h0, mul_zero] at hex
    exact absurd hex.symm (ne_of_gt hpos)
  have hresolve : pairResolve M s a b =
      ({ a with x := a.x - (dx / d) * ((a.r + b.r - d) / 2),
                y := a.y - (dy / d) * ((a.r + b.r - d) / 2),
                vx := a.vx - (-(1 + COLL_RESTITUTION) * ((b.vx - a.vx) * (dx / d)
                        + (b.vy - a.vy) * (dy / d)) / 2) * (dx / d),
                vy := a.vy - (-(1 + COLL_RESTITUTION) * ((b.vx - a.vx) * (dx / d)
                        + (b.vy - a.vy) * (dy / d)) / 2) * (dy / d),
                vang := a.vang + ((b.vx - a.vx) * (-(dy / d))
                        + (b.vy - a.vy) * (dx / d)) * (1/100),
                hp := a.hp - |(b.vx - a.vx) * (dx / d) + (b.vy - a.vy) * (dy / d)|
                        * (4/100) * s.damage },
       { b with x := b.x + (dx / d) * ((a.r + b.r - d) / 2),
                y := b.y + (dy / d) * ((a.r + b.r - d) / 2),
                vx := b.vx + (-(1 + COLL_RESTITUTION) * ((b.vx - a.vx) * (dx / d)
                        + (b.vy - a.vy) * (dy / d)) / 2) * (dx / d),
                vy := b.vy + (-(1 + COLL_RESTITUTION) * ((b.vx - a.vx) * (dx / d)
                        + (b.vy - a.vy) * (dy / d)) / 2) * (dy / d),
                vang := b.vang - ((b.vx - a.vx) * (-(dy / d))
                        + (b.vy - a.vy) * (dx / d)) * (1/100),
                hp := b.hp - |(b.vx - a.vx) * (dx / d) + (b.vy - a.vy) * (dy / d)|
                        * (4/100) * s.damage }) := by
    unfold pairResolve
    rw [if_pos ⟨ha, hb⟩]
    dsimp only
    rw [if_pos hover]
  have key : (dx / d) * (dx / d) + (dy / d) * (dy / d) = 1 := by
    field_simp
    linarith [hex]
  rw [hresolve]
  dsimp only
  have h1 : ((b.vx + (-(1 + COLL_RESTITUTION) * ((b.vx - a.vx) * (dx / d)
          + (b.vy - a.vy) * (dy / d)) / 2) * (dx / d))
        - (a.vx - (-(1 + COLL_RESTITUTION) * ((b.vx - a.vx) * (dx / d)
          + (b.vy - a.vy) * (dy / d)) / 2) * (dx / d))) * (dx / d)
      + ((b.vy + (-(1 + COLL_RESTITUTION) * ((b.vx - a.vx) * (dx / d)
          + (b.vy - a.vy) * (dy / d)) / 2) * (dy / d))
        - (a.vy - (-(1 + COLL_RESTITUTION) * ((b.vx - a.vx) * (dx / d)
          + (b.vy - a.vy) * (dy / d)) / 2) * (dy / d))) * (dy / d)
      = -COLL_RESTITUTION * ((b.vx - a.vx) * (dx / d) + (b.vy - a.vy) * (dy / d)) := by
    linear_combination (-(1 + COLL_RESTITUTION)
      * ((b.vx - a.vx) * (dx / d) + (b.vy - a.vy) * (dy / d))) * key
  refine ⟨h1, ?_⟩
  rw [h1, abs_mul, abs_neg,
    abs_of_nonneg (by norm_num [COLL_RESTITUTION] : (0 : ℚ) ≤ COLL_RESTITUTION)]

/-- Left body of the C6 witness collision. -/
def topC6a : Top :=
  { id := "l", label := "L", color := "", x := 0, y := 0, vx := 5, vy := 0,
    ang := 0, vang := 0, r := 26, hp := 100, alive := true }

/-- Right body of the C6 witness collision. -/
def topC6b : Top :=
  { id := "r", label := "R", color := "", x := 10, y := 0, vx := -3, vy := 0,
    ang := 0, vang := 0, r := 26, hp := 100, alive := true }

/-- Witness for C6 at a concrete overlapping pair with exact square root. -/
theorem pair_restitution_witness :
    topC6a.alive = true
    ∧ topC6b.alive = true
    ∧ (topC6b.x - topC6a.x) * (topC6b.x - topC6a.x)
        + (topC6b.y - topC6a.y) * (topC6b.y - topC6a.y)
      < (topC6a.r + topC6b.r) * (topC6a.r + topC6b.r)
    ∧ (1 : ℚ)/1000000 ≤ (topC6b.x - topC6a.x) * (topC6b.x - topC6a.x)
        + (topC6b.y - topC6a.y) * (topC6b.y - topC6a.y)
    ∧ ratMathModel.sqrt (max ((1 : ℚ)/1000000)
          ((topC6b.x - topC6a.x) * (topC6b.x - topC6a.x)
            + (topC6b.y - topC6a.y) * (topC6b.y - topC6a.y)))
        * ratMathModel.sqrt (max ((1 : ℚ)/1000000)
          ((topC6b.x - topC6a.x) * (topC6b.x - topC6a.x)
            + (topC6b.y - topC6a.y) * (topC6b.y - topC6a.y)))
      = (topC6b.x - topC6a.x) * (topC6b.x - topC6a.x)
        + (topC6b.y - topC6a.y) * (topC6b.y - topC6a.y)
    ∧ (let d := ratMathModel.sqrt (max ((1 : ℚ)/1000000)
          ((topC6b.x - topC6a.x) * (topC6b.x - topC6a.x)
            + (topC6b.y - topC6a.y) * (topC6b.y - topC6a.y)))
       let nx := (topC6b.x - topC6a.x) / d
       let ny := (topC6b.y - topC6a.y) / d
       let a2 := (pairResolve ratMathModel defaultSettings topC6a topC6b).1
       let b2 := (pairResolve ratMathModel defaultSettings topC6a topC6b).2
       ((b2.vx - a2.vx) * nx + (b2.vy - a2.vy) * ny)
         = -COLL_RESTITUTION * ((topC6b.vx - topC6a.vx) * nx + (topC6b.vy - topC6a.vy) * ny)
       ∧ |(b2.vx - a2.vx) * nx + (b2.vy - a2.vy) * ny|
         = COLL_RESTITUTION
             * |(topC6b.vx - topC6a.vx) * nx + (topC6b.vy - topC6a.vy) * ny|) :=
  ⟨rfl, rfl, by with_unfolding_all decide, by with_unfolding_all decide,
   by with_unfolding_all decide,
   pair_restitution ratMathModel defaultSettings topC6a topC6b rfl rfl
     (by with_unfolding_all decide) (by with_unfolding_all decide)
     (by with_unfolding_all decide)⟩

/-! ### Claim C9: health never increases -/

/-- Pointwise relation between a body before and after a step: health did not
increase. -/
def hpLe (pre post : Top) : Prop := post.hp ≤ pre.hp

lemma integrate_hp (s : Settings) (dt : ℚ) (t : Top) :
    (integrate s dt t).hp = t.hp := by
  unfold integrate
  split <;> rfl

lemma wallResponse_hp (s : Settings) (dist : ℚ) (t : Top) (hd : 0 ≤ s.damage) :
    (wallResponse s dist t).hp ≤ t.hp := by
  unfold wallResponse
  split
  · dsimp only
    have hnn : 0 ≤ |t.vx * (t.x / dist) + t.vy * (t.y / dist)| * (3/100) * s.damage :=
      mul_nonneg (mul_nonneg (abs_nonneg _) (by norm_num)) hd
    linarith
  · exact le_refl _

lemma ringOutCheck_hp (M : MathModel) (s : Settings) (dist : ℚ) (t : Top) :
    (ringOutCheck M s dist t).hp = t.hp := by
  unfold ringOutCheck
  split <;> rfl

lemma wallRing_hp (M : MathModel) (s : Settings) (t : Top) (hd : 0 ≤ s.damage) :
    (wallRing M s t).hp ≤ t.hp := by
  unfold wallRing
  split
  · rw [ringOutCheck_hp]
    exact wallResponse_hp s _ t hd
  · exact le_refl _

lemma pairResolve_hp (M : MathModel) (s : Settings) (a b : Top) (hd : 0 ≤ s.damage) :
    (pairResolve M s a b).1.hp ≤ a.hp ∧ (pairResolve M s a b).2.hp ≤ b.hp := by
  unfold pairResolve
  split
  · dsimp only
    split
    · dsimp only
      have hnn : 0 ≤ |(b.vx - a.vx) * ((b.x - a.x) / M.sqrt (max (1/1000000)
            ((b.x - a.x) * (b.x - a.x) + (b.y - a.y) * (b.y - a.y))))
          + (b.vy - a.vy) * ((b.y - a.y) / M.sqrt (max (1/1000000)
            ((b.x - a.x) * (b.x - a.x) + (b.y - a.y) * (b.y - a.y))))|
          * (4/100) * s.damage :=
        mul_nonneg (mul_nonneg (abs_nonneg _) (by norm_num)) hd
      constructor <;> · dsimp only; linarith
    · exact ⟨le_refl _, le_refl _⟩
  · exact ⟨le_refl _, le_refl _⟩

lemma forall2_hpLe_refl (l : List Top) : List.Forall₂ hpLe l l := by
  induction l with
  | nil => exact .nil
  | cons a rest ih => exact .cons (le_refl _) ih

lemma forall2_hpLe_trans {l m n : List Top} (h1 : List.Forall₂ hpLe l m)
    (h2 : List.Forall₂ hpLe m n) : List.Forall₂ hpLe l n := by
  induction h1 generalizing n with
  | nil => cases h2; exact .nil
  | cons hab _ ih =>
      cases h2 with
      | cons hbc h2tail => exact .cons (le_trans hbc hab) (ih h2tail)

lemma forall2_hpLe_map (f : Top → Top) (hf : ∀ t, (f t).hp ≤ t.hp) (l : List Top) :
    List.Forall₂ hpLe l (l.map f) := by
  induction l with
  | nil => exact .nil
  | cons a rest ih => exact .cons (hf a) ih

lemma collideOne_hp (M : MathModel) (s : Settings) (hd : 0 ≤ s.damage) :
    ∀ (l : List Top) (a : Top), (collideOne M s a l).1.hp ≤ a.hp
      ∧ List.Forall₂ hpLe l (collideOne M s a l).2 := by
  intro l
  induction l with
  | nil => exact fun a => ⟨le_refl _, .nil⟩
  | cons b rest ih =>
      intro a
      unfold collideOne
      dsimp only
      obtain ⟨hpa, hpb⟩ := pairResolve_hp M s a b hd
      obtain ⟨h1, h2⟩ := ih (pairResolve M s a b).1
      exact ⟨le_trans h1 hpa, .cons hpb h2⟩

lemma collideAllFuel_hp (M : MathModel) (s : Settings) (hd : 0 ≤ s.damage) :
    ∀ (fuel : Nat) (l : List Top), List.Forall₂ hpLe l (collideAllFuel M s fuel l) := by
  intro fuel
  induction fuel with
  | zero => exact fun l => forall2_hpLe_refl l
  | succ f ih =>
      intro l
      cases l with
      | nil => exact .nil
      | cons a rest =>
          unfold collideAllFuel
          dsimp only
          obtain ⟨h1, h2⟩ := collideOne_hp M s hd rest a
          exact .cons h1 (forall2_hpLe_trans h2 (ih _))

lemma stepTops_hp (M : MathModel) (s : Settings) (dt : ℚ) (l : List Top)
    (hd : 0 ≤ s.damage) : List.Forall₂ hpLe l (stepTops M s dt l) := by
  unfold stepTops pairPass
  refine forall2_hpLe_trans (forall2_hpLe_map _ (fun t => le_of_eq (integrate_hp s dt t)) l)
    (forall2_hpLe_trans (forall2_hpLe_map _ (fun t => wallRing_hp M s t hd) _) ?_)
  exact collideAllFuel_hp M s hd _ _

/-- Claim C9: for every body and every physics step, when the damage
multiplier is positive, the body's health after the step is at most its
health before the step (`Forall₂` matches each body of `sim.tops` with the
corresponding body after `physicsStep`). -/
theorem health_monotone (M : MathModel) (s : Settings) (dt : ℚ) (sim : Sim)
    (h : 0 < s.damage) :
    List.Forall₂ hpLe sim.tops (physicsStep M s dt sim).tops := by
  have htops : (physicsStep M s dt sim).tops = stepTops M s dt sim.tops := by
    unfold physicsStep
    dsimp only
    split <;> rfl
  rw [htops]
  exact stepTops_hp M s dt sim.tops (le_of_lt h)

/-- A one-body simulation state. -/
def simC9 : Sim := { tops := [topC4w], running := true, winner := none }

/-- Witness for C9 at a concrete one-body state with damage `1`. -/
theorem health_monotone_witness :
    0 < defaultSettings.damage
    ∧ List.Forall₂ hpLe simC9.tops
        (physicsStep ratMathModel defaultSettings FIXED_DT simC9).tops :=
  ⟨by with_unfolding_all decide,
   health_monotone ratMathModel defaultSettings FIXED_DT simC9
     (by with_unfolding_all decide)⟩

/-! ### Claim C10: no division by zero

`physicsStepChecked` replays `physicsStep` in the `Option` monad, guarding
every division whose divisor is a computed quantity (`dist` in the wall pass,
`d` in the pairwise pass; the remaining divisions are by the literal
constants `2` and `100`).  In the `ℚ` idealization every value is finite, so
"no `NaN`/`Infinity`" amounts to every guarded division having a nonzero
divisor, i.e. the checked step returning `some`. -/

/-- Division guarded against a zero divisor. -/
def divQ (a b : ℚ) : Option ℚ := if b = 0 then none else some (a / b)

/-- `wallResponse` with guarded divisions. -/
def wallResponseChecked (s : Settings) (dist : ℚ) (t : Top) : Option Top :=
  if s.arenaR - t.r - 4 < dist then do
    let nx ← divQ t.x dist
    let ny ← divQ t.y dist
    let pen := dist - (s.arenaR - t.r - 4)
    let vn := t.vx * nx + t.vy * ny
    let vtX := t.vx - vn * nx
    let vtY := t.vy - vn * ny
    let rvx := vtX - vn * nx * WALL_RESTITUTION
    let rvy := vtY - vn * ny * WALL_RESTITUTION
    let impact := |vn|
    pure { t with x := t.x - nx * pen, y := t.y - ny * pen, vx := rvx, vy := rvy,
                  hp := t.hp - impact * (3/100) * s.damage }
  else pure t

/-- `wallRing` with guarded divisions. -/
def wallRingChecked (M : MathModel) (s : Settings) (t : Top) : Option Top :=
  if t.alive = true then do
    let t1 ← wallResponseChecked s (M.hypot t.x t.y) t
    pure (ringOutCheck M s (M.hypot t.x t.y) t1)
  else pure t

/-- `pairResolve` with guarded divisions; the squared center distance is
clamped below by `1e-6` before the square root and the divisions. -/
def pairResolveChecked (M : MathModel) (s : Settings) (a b : Top) :
    Option (Top × Top) :=
  if a.alive = true ∧ b.alive = true then
    let dx := b.x - a.x
    let dy := b.y - a.y
    let d2 := dx * dx + dy * dy
    let rsum := a.r + b.r
    if d2 < rsum * rsum then do
      let d := M.sqrt (max (1/1000000) d2)
      let nx ← divQ dx d
      let ny ← divQ dy d
      let half := (rsum - d) / 2
      let rvx := b.vx - a.vx
      let rvy := b.vy - a.vy
      let relN := rvx * nx + rvy * ny
      let jimp := -(1 + COLL_RESTITUTION) * relN / 2
      let ix := jimp * nx
      let iy := jimp * ny
      let spin := (rvx * (-ny) + rvy * nx) * (1/100)
      let dmg := |relN| * (4/100) * s.damage
      pure ({ a with x := a.x - nx * half, y := a.y - ny * half,
                     vx := a.vx - ix, vy := a.vy - iy,
                     vang := a.vang + spin, hp := a.hp - dmg },
            { b with x := b.x + nx * half, y := b.y + ny * half,
                     vx := b.vx + ix, vy := b.vy + iy,
                     vang := b.vang - spin, hp := b.hp - dmg })
    else pure (a, b)
  else pure (a, b)

/-- `collideOne` with guarded divisions. -/
def collideOneChecked (M : MathModel) (s : Settings) :
    Top → List Top → Option (Top × List Top)
  | a, [] => pure (a, [])
  | a, b :: rest => do
      let p ← pairResolveChecked M s a b
      let q ← collideOneChecked M s p.1 rest
      pure (q.1, p.2 :: q.2)

/-- `collideAllFuel` with guarded divisions. -/
def collideAllFuelChecked (M : MathModel) (s : Settings) :
    Nat → List Top → Option (List Top)
  | 0, l => pure l
  | _ + 1, [] => pure []
  | fuel + 1, a :: rest => do
      let p ← collideOneChecked M s a rest
      let l2 ← collideAllFuelChecked M s fuel p.2
      pure (p.1 :: l2)

/-- Monadic map over `Option`. -/
def mapOpt (f : Top → Option Top) : List Top → Option (List Top)
  | [] => pure []
  | a :: l => do
      let b ← f a
      let l2 ← mapOpt f l
      pure (b :: l2)

/-- `physicsStep` with guarded divisions. -/
def physicsStepChecked (M : MathModel) (s : Settings) (dt : ℚ) (sim : Sim) :
    Option Sim := do
  let tops2 ← mapOpt (wallRingChecked M s) (sim.tops.map (integrate s dt))
  let tops3 ← collideAllFuelChecked M s tops2.length tops2
  let aliveTops := tops3.filter (fun t => t.alive)
  pure (if aliveTops.length ≤ 1 then
    { tops := tops3, running := false, winner := jsWinner aliveTops }
  else { sim with tops := tops3 })

lemma divQ_eq {a b : ℚ} (h : b ≠ 0) : divQ a b = some (a / b) := by
  unfold divQ
  rw [if_neg h]

lemma wallResponseChecked_eq (s : Settings) (dist : ℚ) (t : Top)
    (h : t.r + 4 < s.arenaR) :
    wallResponseChecked s dist t = some (wallResponse s dist t) := by
  unfold wallResponseChecked wallResponse
  by_cases hc : s.arenaR - t.r - 4 < dist
  · have hdist : dist ≠ 0 := ne_of_gt (lt_trans (by linarith) hc)
    rw [if_pos hc, if_pos hc]
    simp only [divQ_eq hdist, Option.bind_eq_bind, Option.some_bind]
    rfl
  · rw [if_neg hc, if_neg hc]
    rfl

lemma integrate_alive (s : Settings) (dt : ℚ) (t : Top) :
    (integrate s dt t).alive = t.alive := by
  unfold integrate
  split <;> rfl

lemma integrate_r (s : Settings) (dt : ℚ) (t : Top) :
    (integrate s dt t).r = t.r := by
  unfold integrate
  split <;> rfl

lemma wallRingChecked_eq (M : MathModel) (s : Settings) (t : Top)
    (h : t.alive = true → t.r + 4 < s.arenaR) :
    wallRingChecked M s t = some (wallRing M s t) := by
  unfold wallRingChecked wallRing
  by_cases ha : t.alive = true
  · rw [if_pos ha, if_pos ha]
    simp only [wallResponseChecked_eq s _ t (h ha), Option.bind_eq_bind, Option.some_bind]
    rfl
  · rw [if_neg ha, if_neg ha]
    rfl

lemma mapOpt_eq (f : Top → Option Top) (g : Top → Top) (l : List Top)
    (h : ∀ t ∈ l, f t = some (g t)) : mapOpt f l = some (l.map g) := by
  induction l with
  | nil => rfl
  | cons a rest ih =>
      unfold mapOpt
      rw [h a (List.mem_cons_self a rest), ih (fun t ht => h t (List.mem_cons_of_mem a ht))]
      rfl

lemma pairResolveChecked_eq (M : MathModel) (s : Settings) (a b : Top)
    (hsq : ∀ q : ℚ, 1/1000000 ≤ q → 0 < M.sqrt q) :
    pairResolveChecked M s a b = some (pairResolve M s a b) := by
  unfold pairResolveChecked pairResolve
  by_cases h1 : a.alive = true ∧ b.alive = true
  · rw [if_pos h1, if_pos h1]
    dsimp only
    by_cases h2 : (b.x - a.x) * (b.x - a.x) + (b.y - a.y) * (b.y - a.y)
        < (a.r + b.r) * (a.r + b.r)
    · have hd : M.sqrt (max (1/1000000)
          ((b.x - a.x) * (b.x - a.x) + (b.y - a.y) * (b.y - a.y))) ≠ 0 :=
        ne_of_gt (hsq _ (le_max_left _ _))
      rw [if_pos h2, if_pos h2]
      simp only [divQ_eq hd, Option.bind_eq_bind, Option.some_bind]
      rfl
    · rw [if_neg h2, if_neg h2]
      rfl
  · rw [if_neg h1, if_neg h1]
    rfl

lemma collideOneChecked_eq (M : MathModel) (s : Settings)
    (hsq : ∀ q : ℚ, 1/1000000 ≤ q → 0 < M.sqrt q) :
    ∀ (l : List Top) (a : Top),
      collideOneChecked M s a l = some (collideOne M s a l) := by
  intro l
  induction l with
  | nil => intro a; rfl
  | cons b rest ih =>
      intro a
      simp only [collideOneChecked, pairResolveChecked_eq M s a b hsq,
        Option.bind_eq_bind, Option.some_bind, ih]
      rfl

lemma collideAllFuelChecked_eq (M : MathModel) (s : Settings)
    (hsq : ∀ q : ℚ, 1/1000000 ≤ q → 0 < M.sqrt q) :
    ∀ (fuel : Nat) (l : List Top),
      collideAllFuelChecked M s fuel l = some (collideAllFuel M s fuel l) := by
  intro fuel
  induction fuel with
  | zero => intro l; rfl
  | succ f ih =>
      intro l
      cases l with
      | nil => rfl
      | cons a rest =>
          simp only [collideAllFuelChecked, collideOneChecked_eq M s hsq,
            Option.bind_eq_bind, Option.some_bind, ih]
          rfl

/-- Claim C10: for every list of bodies and settings with
`arenaRadius > bodyRadius + 4` for each (alive) body, a physics step performs
no division by zero — the checked step, which guards the wall-pass division
by the center distance (taken only when that distance exceeds the strictly
positive limit `arenaR − r − 4`) and the pairwise-pass division by
`sqrt(max(1e-6, d2))` (the squared center distance clamped below by `1e-6`),
succeeds and returns exactly the unchecked step.  All values are rationals,
hence finite.  The hypothesis on `M.sqrt` holds for the real square root,
which is strictly positive on `[1e-6, ∞)`. -/
theorem step_no_div_zero (M : MathModel) (s : Settings) (dt : ℚ) (sim : Sim)
    (h1 : ∀ t ∈ sim.tops, t.alive = true → t.r + 4 < s.arenaR)
    (hsq : ∀ q : ℚ, 1/1000000 ≤ q → 0 < M.sqrt q) :
    physicsStepChecked M s dt sim = some (physicsStep M s dt sim) := by
  have hmap : mapOpt (wallRingChecked M s) (sim.tops.map (integrate s dt))
      = some ((sim.tops.map (integrate s dt)).map (wallRing M s)) := by
    apply mapOpt_eq
    intro t ht
    rcases List.mem_map.mp ht with ⟨t0, ht0, rfl⟩
    apply wallRingChecked_eq
    intro halive
    rw [integrate_alive] at halive
    rw [integrate_r]
    exact h1 t0 ht0 halive
  simp only [physicsStepChecked, hmap, collideAllFuelChecked_eq M s hsq,
    Option.bind_eq_bind, Option.some_bind]
  rfl

lemma isqrtGo_ge (n : Nat) :
    ∀ fuel lo hi, lo ≤ hi → lo ≤ isqrtGo n fuel lo hi := by
  intro fuel
  induction fuel with
  | zero => intro lo hi _; exact le_refl lo
  | succ f ih =>
      intro lo hi hlh
      unfold isqrtGo
      dsimp only
      by_cases hm : (lo + hi) / 2 = lo
      · rw [if_pos hm]
      · rw [if_neg hm]
        by_cases hsq : (lo + hi) / 2 * ((lo + hi) / 2) ≤ n
        · rw [if_pos hsq]
          have hmidhi : (lo + hi) / 2 ≤ hi := by omega
          have hlomid : lo ≤ (lo + hi) / 2 := by omega
          exact le_trans hlomid (ih _ _ hmidhi)
        · rw [if_neg hsq]
          exact ih _ _ (by omega)

lemma isqrt_pos (n : Nat) (h : 1 ≤ n) : 0 < isqrt n := by
  unfold isqrt
  rw [if_neg (by omega)]
  have := isqrtGo_ge n (n + 2) 1 (n + 1) (by omega)
  omega

/-- `ratSqrt` is strictly positive on `[1e-6, ∞)` (as is the real square
root), so `ratMathModel` satisfies the square-root hypothesis of
`step_no_div_zero`. -/
lemma ratSqrt_pos (q : ℚ) (h : 1/1000000 ≤ q) : 0 < ratSqrt q := by
  have hq : 0 < q := lt_of_lt_of_le (by norm_num) h
  unfold ratSqrt
  rw [if_neg (not_le.mpr hq)]
  have hnum : 1 ≤ q.num.toNat := by
    have : 0 < q.num := Rat.num_pos.mpr hq
    omega
  have hden : 1 ≤ q.den := q.pos
  have h1 : 0 < isqrt q.num.toNat := isqrt_pos _ hnum
  have h2 : 0 < isqrt q.den := isqrt_pos _ hden
  apply div_pos
  · exact_mod_cast h1
  · exact_mod_cast h2

/-- Witness for C10 at a concrete two-body overlapping state (both passes
exercised). -/
theorem step_no_div_zero_witness :
    (∀ t ∈ simC4.tops, t.alive = true → t.r + 4 < defaultSettings.arenaR)
    ∧ (∀ q : ℚ, 1/1000000 ≤ q → 0 < ratMathModel.sqrt q)
    ∧ physicsStepChecked ratMathModel defaultSettings FIXED_DT simC4
        = some (physicsStep ratMathModel defaultSettings FIXED_DT simC4) :=
  ⟨by with_unfolding_all decide, fun q hq => ratSqrt_pos q hq,
   step_no_div_zero ratMathModel defaultSettings FIXED_DT simC4
     (by with_unfolding_all decide) (fun q hq => ratSqrt_pos q hq)⟩

/-! ### Claim C7: spawn draw order and ranges -/

lemma spawnList_getD (M : MathModel) (s : Settings) (rr st : ℚ) :
    ∀ (ms : List Movie) (i t j : Nat), j < ms.length →
      (spawnList M s rr st i t ms).getD j top0
        = (spawnBody M s rr st (i + j) (ms.getD j movie0) (advIter (5 * j) t)).1 := by
  intro ms
  induction ms with
  | nil =>
      intro i t j hj
      exact absurd hj (Nat.not_lt_zero j)
  | cons m rest ih =>
      intro i t j hj
      cases j with
      | zero => rfl
      | succ j =>
          have hj2 : j < rest.length := by
            simp only [List.length_cons] at hj
            omega
          show (spawnList M s rr st (i + 1) (spawnBody M s rr st i m t).2 rest).getD j top0 = _
          rw [ih (i + 1) (spawnBody M s rr st i m t).2 j hj2]
          have e1 : i + 1 + j = i + (j + 1) := by omega
          have e2 : advIter (5 * j) (spawnBody M s rr st i m t).2
              = advIter (5 * (j + 1)) t := by
            rw [show (spawnBody M s rr st i m t).2 = advIter 5 t from rfl, ← advIter_add,
              show 5 * j + 5 = 5 * (j + 1) from by omega]
          rw [e1, e2]
          rfl

/-- Claim C7: `spawnTops` iterates bodies in roster order (body `i` carries
roster entry `i`'s id, label and color) and draws from the single shared
generator in the fixed per-body order angle-jitter, radius-fraction, speed,
heading-jitter, angular-velocity: body `i` consumes exactly the generator
outputs `u (5i), …, u (5i+4)` in those roles.  The angle jitter
`u (5i) · 0.2` lies in `[0, 0.2)`, the radial distance is
`0.85·rr + 0.15·u(5i+1)·rr` with `rr = arenaR − topR − 6`, and the speed
`120 + 80·u(5i+2)` lies in `[120, 200)`. -/
theorem spawn_draw_order (M : MathModel) (movies : List Movie) (s : Settings)
    (i : Nat) (hi : i < movies.length) :
    let n := movies.length
    let rr := s.arenaR - s.topR - 6
    let st := (2 * M.pi) / (max 1 n : ℚ)
    let u := fun k => mulberryVal s.seed k
    let top := (spawnTops M movies s).getD i top0
    let m := movies.getD i movie0
    let rdist := rr * (85/100) + rr * (15/100) * u (5*i + 1)
    let speed := 120 + 80 * u (5*i + 2)
    let dir := top.ang + M.pi + (u (5*i + 3) - 1/2) * (6/10)
    top.id = m.id ∧ top.label = m.label ∧ top.color = m.color
    ∧ top.ang = (i : ℚ) * st + u (5*i) * (2/10)
    ∧ 0 ≤ u (5*i) * (2/10) ∧ u (5*i) * (2/10) < 2/10
    ∧ top.x = M.cos top.ang * rdist
    ∧ top.y = M.sin top.ang * rdist
    ∧ top.vx = M.cos dir * speed
    ∧ top.vy = M.sin dir * speed
    ∧ 120 ≤ speed ∧ speed < 200
    ∧ top.vang = (u (5*i + 4) - 1/2) * 14
    ∧ top.r = s.topR ∧ top.hp = 100 ∧ top.alive = true := by
  dsimp only
  have hkey := spawnList_getD M s (s.arenaR - s.topR - 6)
    ((2 * M.pi) / (max 1 movies.length : ℚ)) movies 0 (s.seed % M32) i hi
  rw [Nat.zero_add] at hkey
  rw [show spawnTops M movies s
      = spawnList M s (s.arenaR - s.topR - 6)
          ((2 * M.pi) / (max 1 movies.length : ℚ)) 0 (s.seed % M32) movies from rfl,
    hkey]
  have hu0 : (0:ℚ) ≤ mulberryVal s.seed (5*i) := mulberryVal_nonneg _ _
  have hu1 : mulberryVal s.seed (5*i) < 1 := mulberryVal_lt_one _ _
  have hs0 : (0:ℚ) ≤ mulberryVal s.seed (5*i + 2) := mulberryVal_nonneg _ _
  have hs1 : mulberryVal s.seed (5*i + 2) < 1 := mulberryVal_lt_one _ _
  refine ⟨rfl, rfl, rfl, rfl, by linarith, by linarith, rfl, rfl, rfl, rfl,
    by linarith, by linarith, rfl, rfl, rfl, rfl⟩

/-- Witness for C7: the second body of a two-movie roster at the default
settings. -/
theorem spawn_draw_order_witness :
    1 < ([movieA, movieB] : List Movie).length
    ∧ (let n := ([movieA, movieB] : List Movie).length
       let rr := defaultSettings.arenaR - defaultSettings.topR - 6
       let st := (2 * ratMathModel.pi) / (max 1 n : ℚ)
       let u := fun k => mulberryVal defaultSettings.seed k
       let top := (spawnTops ratMathModel [movieA, movieB] defaultSettings).getD 1 top0
       let m := ([movieA, movieB] : List Movie).getD 1 movie0
       let rdist := rr * (85/100) + rr * (15/100) * u (5*1 + 1)
       let speed := 120 + 80 * u (5*1 + 2)
       let dir := top.ang + ratMathModel.pi + (u (5*1 + 3) - 1/2) * (6/10)
       top.id = m.id ∧ top.label = m.label ∧ top.color = m.color
       ∧ top.ang = ((1 : Nat) : ℚ) * st + u (5*1) * (2/10)
       ∧ 0 ≤ u (5*1) * (2/10) ∧ u (5*1) * (2/10) < 2/10
       ∧ top.x = ratMathModel.cos top.ang * rdist
       ∧ top.y = ratMathModel.sin top.ang * rdist
       ∧ top.vx = ratMathModel.cos dir * speed
       ∧ top.vy = ratMathModel.sin dir * speed
       ∧ 120 ≤ speed ∧ speed < 200
       ∧ top.vang = (u (5*1 + 4) - 1/2) * 14
       ∧ top.r = defaultSettings.topR ∧ top.hp = 100 ∧ top.alive = true) :=
  ⟨by decide, spawn_draw_order ratMathModel [movieA, movieB] defaultSettings 1 (by decide)⟩

end SpinBlade
